import Mathlib

/-!
Verification of the stable element-indexing core of the `mcp-browser-use`
server (`src/mcp_browser_use/server.py`), shallowly embedded in Lean.

The server keeps two pieces of process-wide mutable state that the claims
are about:

* `_selector_map : Dict[int, str]` — the Index Mapping from 1-based element
  indices to CSS selectors, built by `inspect_page`;
* `_last_inspected_url : Optional[str]` — the URL recorded at the last
  snapshot, used by the invalidation check.

Each tool is embedded as a pure function.  Everything the real code reads
from the external browser engine (the list of elements matching a selector,
the set of open pages before and after a click, the page URL after an
action) is passed in as an explicit argument, so the functions are total
and executable.  Tools that `raise` in Python return `Except String _`;
tools that merely report text return the text.
-/

/-- The index-related server state: `_selector_map` (as an association list
with the dict lookup discipline; keys inserted by `inspect_page` are
distinct) and `_last_inspected_url`. -/
structure BUState where
  selector_map : List (Nat × String)
  last_inspected_url : Option String
deriving DecidableEq

/-- Dict lookup on the association-list representation of `_selector_map`. -/
def mapLookup (m : List (Nat × String)) (k : Nat) : Option String :=
  match m with
  | [] => none
  | (k2, v) :: rest => if k = k2 then some v else mapLookup rest k

/-- Model of `_selector_map.pop(k, None)`: remove the binding for `k`. -/
def mapErase (m : List (Nat × String)) (k : Nat) : List (Nat × String) :=
  m.filter (fun p => p.1 ≠ k)

/-- Python truthiness of an optional string: `None` and `""` are falsy. -/
def truthyUrl : Option String → Bool
  | none => false
  | some s => !(s == "")

/-- ASCII lowercasing, the fragment of `.lower()` / `toLowerCase()` the
embedded strings exercise (kernel-reducible, unlike `String.toLower`). -/
def strLower (s : String) : String := ⟨s.data.map Char.toLower⟩

/-- Checks for the ASCII whitespace the trimmed strings exercise. -/
def charIsWs (c : Char) : Bool := c == ' ' || c == '\t' || c == '\n' || c == '\r'

/-- Drops leading whitespace characters. -/
def dropWsLead : List Char → List Char
  | [] => []
  | c :: cs => if charIsWs c then dropWsLead cs else c :: cs

/-- Model of JS `.trim()` on the strings the claims exercise
(kernel-reducible, unlike `String.trim`). -/
def strTrim (s : String) : String :=
  ⟨(dropWsLead ((dropWsLead s.data).reverse)).reverse⟩

/-- Model of `_reset_index_if_navigated(new_url)`: if `new_url` and
`_last_inspected_url` are both truthy and differ, clear `_selector_map`
and set `_last_inspected_url = new_url`; otherwise leave the state alone. -/
def reset_index_if_navigated (new_url : Option String) (s : BUState) : BUState :=
  if truthyUrl new_url && truthyUrl s.last_inspected_url
      && !(new_url == s.last_inspected_url) then
    { selector_map := [], last_inspected_url := new_url }
  else s

/-- State effect of `go_to_url`: `_selector_map.clear()` only;
`_last_inspected_url` is not touched. -/
def go_to_url_state (s : BUState) : BUState :=
  { s with selector_map := [] }

/-- State effect of `search_google`: `_selector_map.clear()` only. -/
def search_google_state (s : BUState) : BUState :=
  { s with selector_map := [] }

/-- State effect of `go_back`: `_selector_map.clear()` only. -/
def go_back_state (s : BUState) : BUState :=
  { s with selector_map := [] }

/-- State effect of `open_tab`: `_selector_map.clear()` only (the new page
becomes current; `_last_inspected_url` is not touched). -/
def open_tab_state (s : BUState) : BUState :=
  { s with selector_map := [] }

/-- State effect of `initialize_browser` / `close_browser`:
`_selector_map.clear()` and `_last_inspected_url = None`. -/
def close_browser_state (_s : BUState) : BUState :=
  { selector_map := [], last_inspected_url := none }

/-- Model of `switch_tab(page_id)`.  `pages` is the list of open page ids from
`browser.get_pages()`, `cur` the current page id, `titleOrUrl` the string
the real code reads from the target page for the confirmation.  Returns
(new current page, new state, result text). -/
def switch_tab (page_id : Int) (pages : List Nat) (titleOrUrl : String)
    (cur : Nat) (s : BUState) : Nat × BUState × String :=
  if pages.isEmpty then (cur, s, "No tabs open.")
  else
    let pid : Int := if page_id < 0 then (pages.length : Int) + page_id else page_id
    if pid < 0 ∨ pid ≥ (pages.length : Int) then
      (cur, s, "Invalid tab index " ++ toString pid ++ ". There are "
        ++ toString pages.length ++ " tabs.")
    else
      ((pages.get? pid.toNat).getD cur,
       { s with selector_map := [] },
       "Switched to tab " ++ toString pid ++ " (" ++ titleOrUrl ++ ")")

/-- One entry of the list returned by the `inspect_page` page evaluation.
The real value is a JSON object; the indexing loop only looks at whether it
is a dict carrying a `"selector"` key, so the embedding keeps exactly that:
`selectorField` is `some sel` when the item is a dict with a `"selector"`
entry (a well-formed Element Descriptor always is), `none` otherwise. -/
structure InspectItem where
  selectorField : Option String
deriving DecidableEq

/-- The indexing loop of `inspect_page`:
`for i, item in enumerate(elements, start=1): if ... : _selector_map[i] = item["selector"]`,
started at counter `i`.  Items without a selector are skipped but still
consume their index. -/
def buildMapFrom (i : Nat) : List InspectItem → List (Nat × String)
  | [] => []
  | it :: rest =>
    match it.selectorField with
    | some sel => (i, sel) :: buildMapFrom (i + 1) rest
    | none => buildMapFrom (i + 1) rest

/-- The `_selector_map` produced by `inspect_page` from the element list
(enumeration starts at 1). -/
def build_selector_map (elements : List InspectItem) : List (Nat × String) :=
  buildMapFrom 1 elements

/-- State effect of a successful `inspect_page`: the map is replaced
wholesale by the freshly built one and `_last_inspected_url` is set to the
page URL read after the scan. -/
def inspect_page_state (elements : List InspectItem) (url : String)
    (_s : BUState) : BUState :=
  { selector_map := build_selector_map elements, last_inspected_url := some url }

/-- An `<option>` of a `<select>` element as the dropdown JS sees it. -/
structure SelectOption where
  text : String
  value : String
deriving DecidableEq

/-- A live DOM element as observed through the calls the tools make:
`tagName` (DOM property, the embedding returns it for the
`get_attribute("tagName")` read as well), the `type` attribute, and for
`<select>` elements the option list. -/
structure Elem where
  tagName : String
  typeAttr : Option String
  options : List SelectOption
deriving DecidableEq

/-- Everything `click_element` observes from the browser engine: the
elements matching the stored selector, the open-page id sets before and
after the click, and the page URL read after the click. -/
structure ClickEnv where
  matched : List Elem
  beforePages : List Nat
  afterPages : List Nat
  postUrl : Option String
deriving DecidableEq

/-- Model of `click_element(index)`.  Returns `.error` where the Python raises, and
otherwise `.ok (state, current page id, result text)`. -/
def click_element (index : Nat) (env : ClickEnv) (cur : Nat) (s : BUState) :
    Except String (BUState × Nat × String) :=
  match mapLookup s.selector_map index with
  | none =>
    .error ("Element with index " ++ toString index
      ++ " does not exist - call inspect_page() first and retry")
  | some _ =>
    match env.matched with
    | [] =>
      .ok ({ s with selector_map := mapErase s.selector_map index }, cur,
        "Index " ++ toString index
          ++ ": element not found anymore (page changed). Re-run inspect_page().")
    | el :: _ =>
      if strLower el.tagName == "input" && (strLower (el.typeAttr.getD "") == "file") then
        .ok (s, cur, "Index " ++ toString index
          ++ " opens a file picker. Use a dedicated upload tool.")
      else
        let msg := "Clicked element at index " ++ toString index
        let new_ids := env.afterPages.filter (fun p => !(env.beforePages.contains p))
        if new_ids.isEmpty then
          .ok (reset_index_if_navigated env.postUrl s, cur, msg)
        else
          .ok ({ s with selector_map := [] },
            (env.afterPages.find? (fun p => new_ids.contains p)).getD cur,
            msg ++ " - New tab opened and switched to it.")

/-- Model of `input_text(index, text, has_sensitive_data)`.  `matched` is the result
of re-resolving the stored selector on the live page, `postUrl` the page
URL read after the fill. -/
def input_text (index : Nat) (text : String) (has_sensitive_data : Bool)
    (matched : List Elem) (postUrl : Option String) (s : BUState) :
    Except String (BUState × String) :=
  match mapLookup s.selector_map index with
  | none =>
    .error ("Element index " ++ toString index
      ++ " does not exist - call inspect_page() first")
  | some _ =>
    match matched with
    | [] =>
      .ok ({ s with selector_map := mapErase s.selector_map index },
        "Index " ++ toString index ++ ": element not found anymore. Re-run inspect_page().")
    | _ :: _ =>
      .ok (reset_index_if_navigated postUrl s,
        if has_sensitive_data then
          "Input sensitive data into index " ++ toString index
        else
          "Input " ++ text ++ " into index " ++ toString index)

/-- Model of `json.dumps` on a plain string without characters needing escapes:
wrap in double quotes (the texts in the claims need no escaping). -/
def jsonDumps (s : String) : String := "\"" ++ s ++ "\""

/-- The in-page JS of `select_dropdown_option`: `document.querySelector`
result is `qs`; a non-`<select>` or missing element gives `null`, otherwise
the value of the first option whose trimmed text equals the trimmed wanted
text, or `null` when none matches. -/
def jsValueForText (qs : Option Elem) (want : String) : Option String :=
  match qs with
  | none => none
  | some el =>
    if strLower el.tagName == "select" then
      (el.options.find? (fun o => strTrim o.text == strTrim want)).map (fun o => o.value)
    else none

/-- Model of `select_dropdown_option(index, text)`.  `qs` is the `querySelector`
result seen by the in-page JS, `matched` the elements found by
`get_elements_by_css_selector`.  Returns
`(state, value passed to select_option if any, result text)`: the middle
component is `some v` exactly when the code reaches
`elements[0].select_option(v)` and so mutates the live select. -/
def select_dropdown_option (index : Nat) (text : String) (qs : Option Elem)
    (matched : List Elem) (s : BUState) : BUState × Option String × String :=
  match mapLookup s.selector_map index with
  | none => (s, none, "No such element index. Run inspect_page() first.")
  | some _ =>
    match jsValueForText qs text with
    | none => (s, none, "Could not find option with visible text " ++ jsonDumps text ++ ".")
    | some value =>
      match matched with
      | [] => (s, none, "Select element disappeared; re-run inspect_page().")
      | _ :: _ =>
        (s, some value,
          "Selected option " ++ jsonDumps text ++ " with value " ++ jsonDumps value)

/-- Model of `get_dropdown_options(index)`.  `qs` is the `querySelector` result seen
by the in-page JS; a missing element or a non-`<select>` yields `null`, an
empty option list is also reported as not found (Python `if not opts`). -/
def get_dropdown_options (index : Nat) (qs : Option Elem) (s : BUState) : String :=
  match mapLookup s.selector_map index with
  | none => "No such element index. Run inspect_page() first."
  | some _ =>
    let opts : Option (List SelectOption) :=
      match qs with
      | none => none
      | some el => if strLower el.tagName == "select" then some el.options else none
    match opts with
    | some (o :: os) =>
      String.intercalate "\n"
        (((o :: os).enum.map (fun p =>
            toString p.1 ++ ": text=" ++ jsonDumps p.2.text
              ++ "  value=" ++ jsonDumps p.2.value))
          ++ ["Use select_dropdown_option(index, text=<visible text>)"])
    | _ => "No options found (or element " ++ toString index ++ " is not a <select>)."

/-- One DOM level as the `cssPath` walk in `inspect_page` sees it: the
node name, the `id` property (`""` when unset, as in the DOM), and the node
names of the preceding element siblings. -/
structure DomLevel where
  nodeName : String
  idAttr : String
  prevSiblings : List String
deriving DecidableEq

/-- Model of `CSS.escape` restricted to ordinary identifiers, where it is the
identity; the claims never exercise characters it would rewrite. -/
def cssEscape (s : String) : String := s

/-- The `nth` counter of the `cssPath` walk: 1 plus the number of preceding
element siblings whose lowercased node name equals this node's. -/
def nthOfType (l : DomLevel) : Nat :=
  1 + l.prevSiblings.countP (fun t => strLower t == strLower l.nodeName)

/-- The locator segment for a level carrying an id. -/
def idSegment (l : DomLevel) : String :=
  strLower l.nodeName ++ "#" ++ cssEscape l.idAttr

/-- The locator segment for a level without an id: tag plus ordinal. -/
def ordSegment (l : DomLevel) : String :=
  strLower l.nodeName ++ ":nth-of-type(" ++ toString (nthOfType l) ++ ")"

/-- The `while` loop of `cssPath`: `chain` is the element followed by its
ancestors (leaf first), `path` the accumulated segments (root first, built
by `unshift`).  The loop runs while a node remains and `path.length < 8`;
an id terminates the walk right after its own segment is added. -/
def cssPathLoop : List DomLevel → List String → List String
  | [], path => path
  | l :: rest, path =>
    if path.length < 8 then
      if l.idAttr ≠ "" then idSegment l :: path
      else cssPathLoop rest (ordSegment l :: path)
    else path

/-- Model of `cssPath(el)`: run the walk and join the segments with the child
combinator. -/
def cssPath (chain : List DomLevel) : String :=
  String.intercalate " > " (cssPathLoop chain [])

/-- Specification-style segment list, leaf to root, uncapped: at each level
either the id segment (terminating) or the ordinal segment.  Used to
characterise `cssPathLoop`. -/
def cssSegments : List DomLevel → List String
  | [] => []
  | l :: rest =>
    if l.idAttr ≠ "" then [idSegment l]
    else ordSegment l :: cssSegments rest

/-- What a scroll tool does to the live page. -/
inductive ScrollEffect
  | byPixels (n : Int)
  | byViewportDown
  | byViewportUp
deriving DecidableEq

/-- The shared confirmation phrase: `'one page' if amount == -1 else
f"\x7bamount\x7d pixels"`. -/
def scrollAmountPhrase (amount : Int) : String :=
  if amount == -1 then "one page" else toString amount ++ " pixels"

/-- Model of `scroll_down(amount)`: omitted amount scrolls one viewport and sets the
marker `-1`; an explicit amount scrolls `window.scrollBy(0, amount)`. -/
def scroll_down : Option Int → ScrollEffect × String
  | none =>
    (ScrollEffect.byViewportDown, "Scrolled down the page by " ++ scrollAmountPhrase (-1))
  | some a =>
    (ScrollEffect.byPixels a, "Scrolled down the page by " ++ scrollAmountPhrase a)

/-- Model of `scroll_up(amount)`: omitted amount scrolls one viewport up and sets
the marker `-1`; an explicit amount interpolates `-amount` into the scroll
script. -/
def scroll_up : Option Int → ScrollEffect × String
  | none =>
    (ScrollEffect.byViewportUp, "Scrolled up the page by " ++ scrollAmountPhrase (-1))
  | some a =>
    (ScrollEffect.byPixels (-a), "Scrolled up the page by " ++ scrollAmountPhrase a)

/-- Checks that `needle` occurs at the head of `hay`. -/
def charsLeadWith : List Char → List Char → Bool
  | [], _ => true
  | _ :: _, [] => false
  | a :: as, b :: bs => a == b && charsLeadWith as bs

/-- Checks that `needle` occurs somewhere in `hay`. -/
def charsOccur (needle : List Char) : List Char → Bool
  | [] => charsLeadWith needle []
  | c :: cs => charsLeadWith needle (c :: cs) || charsOccur needle cs

/-- Substring occurrence on strings. -/
def occursIn (needle hay : String) : Bool :=
  charsOccur needle.data hay.data


/-- A sample non-file interactive element used to instantiate theorems. -/
def elemButton : Elem := { tagName := "button", typeAttr := none, options := [] }

/-- The `<select>` of the specification scenario: options
("Red","r") and ("Blue","b"). -/
def redBlueSelect : Elem :=
  { tagName := "select", typeAttr := none,
    options := [{ text := "Red", value := "r" }, { text := "Blue", value := "b" }] }

/-!  Helper lemmas. -/

theorem mapLookup_erase_self (m : List (Nat × String)) (k : Nat) :
    mapLookup (mapErase m k) k = none := by
  induction m with
  | nil => rfl
  | cons p rest ih =>
    obtain ⟨k2, v⟩ := p
    by_cases h : k2 = k
    · have he : mapErase ((k2, v) :: rest) k = mapErase rest k := by
        simp [mapErase, List.filter_cons, h]
      rw [he]; exact ih
    · have he : mapErase ((k2, v) :: rest) k = (k2, v) :: mapErase rest k := by
        simp [mapErase, List.filter_cons, h]
      rw [he]
      show (if k = k2 then some v else mapLookup (mapErase rest k) k) = none
      rw [if_neg (fun hk => h hk.symm)]
      exact ih

theorem buildMapFrom_spec (elements : List InspectItem)
    (h : ∀ it ∈ elements, it.selectorField.isSome) (start : Nat) :
    ((buildMapFrom start elements).map Prod.fst
        = List.range' start elements.length) ∧
    (∀ i : Nat, ∀ hi : i < elements.length,
      mapLookup (buildMapFrom start elements) (start + i)
        = (elements.get ⟨i, hi⟩).selectorField) := by
  induction elements generalizing start with
  | nil => exact ⟨rfl, fun i hi => absurd hi (Nat.not_lt_zero i)⟩
  | cons it rest ih =>
    obtain ⟨sel, hsel⟩ := Option.isSome_iff_exists.mp (h it (List.mem_cons_self it rest))
    have hrest : ∀ x ∈ rest, x.selectorField.isSome :=
      fun x hx => h x (List.mem_cons_of_mem it hx)
    obtain ⟨ihkeys, ihlook⟩ := ih hrest (start + 1)
    constructor
    · simp only [buildMapFrom, hsel, List.map_cons, List.length_cons]
      rw [List.range'_succ start rest.length 1, ihkeys]
    · intro i hi
      match i with
      | 0 =>
        have hl : mapLookup (buildMapFrom start (it :: rest)) (start + 0) = some sel := by
          simp [buildMapFrom, hsel, mapLookup]
        rw [hl, ← hsel]
        rfl
      | j + 1 =>
        have hj : j < rest.length := Nat.lt_of_succ_lt_succ hi
        have := ihlook j hj
        simp only [buildMapFrom, hsel, mapLookup]
        rw [if_neg (by omega)]
        rw [show start + (j + 1) = start + 1 + j by omega]
        exact this

/-- C1: a successful `inspect_page` over a descriptor list of length N
(every item carries a selector) produces an Index Mapping whose keys are
exactly 1..N in order, with no gaps, and key i+1 holds the selector of the
i-th descriptor in the order the page scan returned them. -/
theorem c1_inspect_page_index_mapping (elements : List InspectItem)
    (url : String) (s : BUState)
    (h : ∀ it ∈ elements, it.selectorField.isSome) :
    ((inspect_page_state elements url s).selector_map.map Prod.fst
        = List.range' 1 elements.length) ∧
    (∀ i : Nat, ∀ hi : i < elements.length,
      mapLookup (inspect_page_state elements url s).selector_map (1 + i)
        = (elements.get ⟨i, hi⟩).selectorField) := by
  have := buildMapFrom_spec elements h 1
  exact ⟨this.1, this.2⟩

/-- Witness for C1 at a concrete two-element snapshot. -/
theorem c1_inspect_page_index_mapping_witness :
    (∀ it ∈ [InspectItem.mk (some "a"), InspectItem.mk (some "b")],
        it.selectorField.isSome) ∧
    ((inspect_page_state [InspectItem.mk (some "a"), InspectItem.mk (some "b")]
        "http://x" ⟨[], none⟩).selector_map.map Prod.fst = List.range' 1 2) := by
  refine ⟨by decide, ?_⟩
  exact (c1_inspect_page_index_mapping
    [InspectItem.mk (some "a"), InspectItem.mk (some "b")] "http://x" ⟨[], none⟩
    (by decide)).1

/-- C2 counterexample: `go_to_url` empties the Index Mapping while leaving
`lastSnapshotUrl` set, so the two are not always cleared together. -/
theorem c2_cleared_together_cex :
    (go_to_url_state ⟨[(1, "button#go")], some "http://a"⟩).selector_map = []
      ∧ (go_to_url_state ⟨[(1, "button#go")], some "http://a"⟩).last_inspected_url
          = some "http://a"
      ∧ ([((1 : Nat), "button#go")] : List (Nat × String)) ≠ [] :=
  ⟨rfl, rfl, by decide⟩

/-- C2 amended: navigate, search, goBack, openTab and switchTab clear only
the Index Mapping and leave `lastSnapshotUrl` unchanged; click-induced
invalidation either leaves the state alone or clears the mapping while
setting `lastSnapshotUrl` to the new URL; the mapping and
`lastSnapshotUrl` are cleared together only by browser initialization and
close. -/
theorem c2_clearing_discipline (s : BUState) (pid : Int) (pages : List Nat)
    (t : String) (cur : Nat) (newUrl : Option String) :
    ((go_to_url_state s).selector_map = []
      ∧ (go_to_url_state s).last_inspected_url = s.last_inspected_url)
    ∧ search_google_state s = go_to_url_state s
    ∧ go_back_state s = go_to_url_state s
    ∧ open_tab_state s = go_to_url_state s
    ∧ ((switch_tab pid pages t cur s).2.1 = s
        ∨ (switch_tab pid pages t cur s).2.1 = go_to_url_state s)
    ∧ (reset_index_if_navigated newUrl s = s
        ∨ reset_index_if_navigated newUrl s
            = { selector_map := [], last_inspected_url := newUrl })
    ∧ close_browser_state s
        = { selector_map := [], last_inspected_url := none } := by
  refine ⟨⟨rfl, rfl⟩, rfl, rfl, rfl, ?_, ?_, rfl⟩
  · unfold switch_tab
    by_cases hp : pages.isEmpty
    · simp [hp]
    · simp only [hp, Bool.false_eq_true, if_false]
      by_cases hb : ((if pid < 0 then (pages.length : Int) + pid else pid) < 0
          ∨ (if pid < 0 then (pages.length : Int) + pid else pid) ≥ (pages.length : Int))
      · simp [hb]
      · simp [hb, go_to_url_state]
  · unfold reset_index_if_navigated
    by_cases hc : (truthyUrl newUrl && truthyUrl s.last_inspected_url
        && !(newUrl == s.last_inspected_url)) = true
    · simp [hc]
    · simp [hc]

/-- C3: after an in-place action, with the current URL and
`lastSnapshotUrl` both present (a URL is present when it is a non-empty
string; `None` and `""` are falsy in the source), a differing URL empties
the Index Mapping and a coinciding URL leaves the state untouched. -/
theorem c3_url_invalidation (u l : String) (s : BUState)
    (hs : s.last_inspected_url = some l) (hu : u ≠ "") (hl : l ≠ "") :
    (u ≠ l → reset_index_if_navigated (some u) s
        = { selector_map := [], last_inspected_url := some u }) ∧
    (u = l → reset_index_if_navigated (some u) s = s) := by
  constructor
  · intro hne
    unfold reset_index_if_navigated
    rw [if_pos]
    simp only [truthyUrl, hs, Bool.and_eq_true, Bool.not_eq_true', beq_eq_false_iff_ne]
    refine ⟨⟨by simpa using hu, by simpa using hl⟩, by simpa using hne⟩
  · intro he
    unfold reset_index_if_navigated
    rw [if_neg]
    simp [truthyUrl, hs, he]

/-- Witness for C3: navigating from a snapshotted page to a different URL
clears the mapping; re-navigating to the same URL does not. -/
theorem c3_url_invalidation_witness :
    (reset_index_if_navigated (some "http://b") ⟨[(1, "a")], some "http://a"⟩
        = { selector_map := [], last_inspected_url := some "http://b" }) ∧
    (reset_index_if_navigated (some "http://a") ⟨[(1, "a")], some "http://a"⟩
        = ⟨[(1, "a")], some "http://a"⟩) :=
  ⟨(c3_url_invalidation "http://b" "http://a" ⟨[(1, "a")], some "http://a"⟩
      rfl (by decide) (by decide)).1 (by decide),
   (c3_url_invalidation "http://a" "http://a" ⟨[(1, "a")], some "http://a"⟩
      rfl (by decide) (by decide)).2 rfl⟩

/-- C4 counterexample: with an empty Index Mapping, `click_element(1)`
raises (returns an error, not ordinary text), so not every index-taking
operation reports IndexNotFound as an ordinary textual result. -/
theorem c4_index_not_found_cex :
    click_element 1 ⟨[], [], [], none⟩ 0 ⟨[], none⟩
      = Except.error
          "Element with index 1 does not exist - call inspect_page() first and retry" :=
  rfl

/-- C4 amended: for an index absent from the mapping, the dropdown
operations report IndexNotFound as ordinary text and leave the state
untouched, while click and fill escalate it as a raised hard failure; no
operation resolves the absent index to any element (the select tool passes
no value to the page). -/
theorem c4_index_not_found_outcomes (index : Nat) (s : BUState)
    (env : ClickEnv) (text : String) (sens : Bool) (matched : List Elem)
    (postUrl : Option String) (qs : Option Elem) (cur : Nat)
    (h : mapLookup s.selector_map index = none) :
    click_element index env cur s
        = Except.error ("Element with index " ++ toString index
            ++ " does not exist - call inspect_page() first and retry")
    ∧ input_text index text sens matched postUrl s
        = Except.error ("Element index " ++ toString index
            ++ " does not exist - call inspect_page() first")
    ∧ get_dropdown_options index qs s
        = "No such element index. Run inspect_page() first."
    ∧ select_dropdown_option index text qs matched s
        = (s, none, "No such element index. Run inspect_page() first.") := by
  refine ⟨?_, ?_, ?_, ?_⟩
  · unfold click_element; rw [h]
  · unfold input_text; rw [h]
  · unfold get_dropdown_options; rw [h]
  · unfold select_dropdown_option; rw [h]

/-- Witness for C4 amended at index 2 on a one-entry mapping. -/
theorem c4_index_not_found_outcomes_witness :
    get_dropdown_options 2 none ⟨[(1, "a")], none⟩
        = "No such element index. Run inspect_page() first."
    ∧ select_dropdown_option 2 "Blue" none [] ⟨[(1, "a")], none⟩
        = (⟨[(1, "a")], none⟩, none, "No such element index. Run inspect_page() first.") := by
  have := c4_index_not_found_outcomes 2 ⟨[(1, "a")], none⟩ ⟨[], [], [], none⟩
    "Blue" false [] none none 0 (by decide)
  exact ⟨this.2.2.1, this.2.2.2⟩

/-- C5 counterexample: when the stored locator of index 1 re-resolves to no
live element (`querySelector` returns nothing and the selector matches zero
elements), `select_dropdown_option` reports a not-found text but leaves
index 1 in the Index Mapping — the eviction does not happen on the
dropdown-selection error path. -/
theorem c5_stale_eviction_cex :
    (select_dropdown_option 1 "Blue" none [] ⟨[(1, "sel")], some "u"⟩).1
        = ⟨[(1, "sel")], some "u"⟩
    ∧ mapLookup (select_dropdown_option 1 "Blue" none []
        ⟨[(1, "sel")], some "u"⟩).1.selector_map 1 = some "sel"
    ∧ (select_dropdown_option 1 "Blue" none [] ⟨[(1, "sel")], some "u"⟩).2.2
        = "Could not find option with visible text \"Blue\"." :=
  ⟨rfl, rfl, rfl⟩

/-- C5 amended: on a stale re-resolution (zero matching elements), click
and fill evict the index from the mapping — afterwards the index no longer
resolves — and report a non-fatal not-found text; `select_dropdown_option`
reports a not-found text but leaves the mapping unchanged. -/
theorem c5_stale_eviction (index : Nat) (s : BUState) (sel : String)
    (h : mapLookup s.selector_map index = some sel)
    (env : ClickEnv) (henv : env.matched = []) (cur : Nat)
    (text : String) (sens : Bool) (postUrl : Option String) :
    click_element index env cur s
        = Except.ok ({ s with selector_map := mapErase s.selector_map index }, cur,
            "Index " ++ toString index
              ++ ": element not found anymore (page changed). Re-run inspect_page().")
    ∧ input_text index text sens [] postUrl s
        = Except.ok ({ s with selector_map := mapErase s.selector_map index },
            "Index " ++ toString index
              ++ ": element not found anymore. Re-run inspect_page().")
    ∧ mapLookup (mapErase s.selector_map index) index = none
    ∧ (select_dropdown_option index text none [] s).1 = s := by
  refine ⟨?_, ?_, mapLookup_erase_self s.selector_map index, ?_⟩
  · unfold click_element; rw [h, henv]
  · unfold input_text; rw [h]
  · unfold select_dropdown_option; rw [h]; rfl

/-- Witness for C5 amended: click on a vanished element evicts index 1. -/
theorem c5_stale_eviction_witness :
    click_element 1 ⟨[], [7], [7], some "u"⟩ 7 ⟨[(1, "sel")], some "u"⟩
        = Except.ok (⟨[], some "u"⟩, 7,
            "Index 1: element not found anymore (page changed). Re-run inspect_page().")
    ∧ mapLookup (mapErase ([(1, "sel")] : List (Nat × String)) 1) 1 = none := by
  have := c5_stale_eviction 1 ⟨[(1, "sel")], some "u"⟩ "sel" rfl
    ⟨[], [7], [7], some "u"⟩ rfl 7 "t" false (some "u")
  exact ⟨this.1, this.2.2.1⟩

/-- C6: when `click_element` resolves its index and finds a live non-file
element, then if the after-click page set contains a page absent from the
before-click set, the clicked state switches to such a newly detected page
and clears the Index Mapping; with no new page it falls through to the
ordinary URL-comparison invalidation. -/
theorem c6_click_new_tab (index : Nat) (env : ClickEnv) (cur : Nat)
    (s : BUState) (sel : String)
    (hsel : mapLookup s.selector_map index = some sel)
    (el : Elem) (rest : List Elem) (hm : env.matched = el :: rest)
    (hfile : (strLower el.tagName == "input" && (strLower (el.typeAttr.getD "") == "file")) = false) :
    ((∃ p ∈ env.afterPages, p ∉ env.beforePages) →
      ∃ p, p ∈ env.afterPages ∧ p ∉ env.beforePages ∧
        click_element index env cur s
          = Except.ok ({ s with selector_map := [] }, p,
              "Clicked element at index " ++ toString index
                ++ " - New tab opened and switched to it.")) ∧
    ((∀ p ∈ env.afterPages, p ∈ env.beforePages) →
      click_element index env cur s
        = Except.ok (reset_index_if_navigated env.postUrl s, cur,
            "Clicked element at index " ++ toString index)) := by
  have hred : click_element index env cur s =
      (let new_ids := env.afterPages.filter (fun p => !(env.beforePages.contains p))
       if new_ids.isEmpty then
         Except.ok (reset_index_if_navigated env.postUrl s, cur,
           "Clicked element at index " ++ toString index)
       else
         Except.ok ({ s with selector_map := [] },
           (env.afterPages.find? (fun p => new_ids.contains p)).getD cur,
           "Clicked element at index " ++ toString index
             ++ " - New tab opened and switched to it.")) := by
    unfold click_element
    rw [hsel, hm]
    simp only [hfile, Bool.false_eq_true, if_false]
  constructor
  · rintro ⟨p, hpa, hpb⟩
    set new_ids := env.afterPages.filter (fun q => !(env.beforePages.contains q)) with hni
    have hpn : p ∈ new_ids := by
      rw [hni]
      exact List.mem_filter.mpr ⟨hpa, by simpa using hpb⟩
    have hcont : new_ids.contains p = true := List.elem_eq_true_of_mem hpn
    have hfind : (env.afterPages.find? (fun q => new_ids.contains q)).isSome :=
      List.find?_isSome.mpr ⟨p, hpa, hcont⟩
    obtain ⟨q, hq⟩ := Option.isSome_iff_exists.mp hfind
    have hqp : ((fun x => new_ids.contains x) q) = true := List.find?_some hq
    have hqn : q ∈ new_ids := List.mem_of_elem_eq_true hqp
    have hqa : q ∈ env.afterPages := List.mem_of_find?_eq_some hq
    have hqb : q ∉ env.beforePages := by
      have h2 := (List.mem_filter.mp (hni ▸ hqn)).2
      simpa using h2
    have hne : new_ids.isEmpty = false := by
      rcases hn : new_ids with _ | _
      · rw [hn] at hpn; cases hpn
      · rfl
    refine ⟨q, hqa, hqb, ?_⟩
    rw [hred]
    simp only [← hni, hne, Bool.false_eq_true, if_false, hq, Option.getD_some]
  · intro hall
    have hnil : env.afterPages.filter (fun q => !(env.beforePages.contains q)) = [] := by
      refine List.filter_eq_nil_iff.mpr (fun a ha => ?_)
      simp only [Bool.not_eq_true', Bool.not_eq_false]
      exact List.elem_eq_true_of_mem (hall a ha)
    rw [hred]
    simp only [hnil, List.isEmpty_nil, if_true]

/-- Witness for C6: a click that opens page 2 (absent before) switches to
it and clears the mapping. -/
theorem c6_click_new_tab_witness :
    ∃ p, p ∈ [1, 2] ∧ p ∉ [1] ∧
      click_element 1 ⟨[elemButton], [1], [1, 2], some "u"⟩ 1 ⟨[(1, "s")], some "u"⟩
        = Except.ok (⟨[], some "u"⟩, p,
            "Clicked element at index 1 - New tab opened and switched to it.") :=
  (c6_click_new_tab 1 ⟨[elemButton], [1], [1, 2], some "u"⟩ 1 ⟨[(1, "s")], some "u"⟩
      "s" rfl elemButton [] rfl (by decide)).1 ⟨2, by decide, by decide⟩

/-- C7 counterexample: `fill(1, "sensitive", isSensitive=true)` returns a
confirmation that does contain an occurrence of the text argument, because
the fixed sensitive template itself contains the word "sensitive" — so the
confirmation is not free of occurrences of every text. -/
theorem c7_sensitive_echo_cex :
    input_text 1 "sensitive" true [elemButton] none ⟨[(1, "s")], none⟩
        = Except.ok (⟨[(1, "s")], none⟩, "Input sensitive data into index 1")
    ∧ occursIn "sensitive" "Input sensitive data into index 1" = true := by
  exact ⟨rfl, by decide⟩

/-- C7 amended: the sensitive confirmation is independent of the text
argument (two runs differing only in the text give identical results) and
echoes only the index, so for the scenario text "secret" it contains no
occurrence of "secret"; it can still contain a text that happens to occur
in the fixed template.  The non-sensitive confirmation echoes the literal
text. -/
theorem c7_sensitive_independence (index : Nat) (t1 t2 : String)
    (matched : List Elem) (postUrl : Option String) (s : BUState) (sel : String)
    (hsel : mapLookup s.selector_map index = some sel)
    (el : Elem) (rest : List Elem) (hm : matched = el :: rest) :
    input_text index t1 true matched postUrl s
        = input_text index t2 true matched postUrl s
    ∧ input_text index t1 true matched postUrl s
        = Except.ok (reset_index_if_navigated postUrl s,
            "Input sensitive data into index " ++ toString index)
    ∧ input_text index t1 false matched postUrl s
        = Except.ok (reset_index_if_navigated postUrl s,
            "Input " ++ t1 ++ " into index " ++ toString index)
    ∧ occursIn "secret" ("Input sensitive data into index " ++ toString 3) = false := by
  refine ⟨?_, ?_, ?_, by decide⟩
  · unfold input_text; rw [hsel, hm]; rfl
  · unfold input_text; rw [hsel, hm]; rfl
  · unfold input_text; rw [hsel, hm]; rfl

/-- Witness for C7 amended: two sensitive fills at index 3 differing only
in the text give the same confirmation, which contains no "secret". -/
theorem c7_sensitive_independence_witness :
    input_text 3 "secret" true [elemButton] none ⟨[(3, "s")], none⟩
        = input_text 3 "hunter2" true [elemButton] none ⟨[(3, "s")], none⟩
    ∧ occursIn "secret" ("Input sensitive data into index " ++ toString 3) = false := by
  have := c7_sensitive_independence 3 "secret" "hunter2" [elemButton] none
    ⟨[(3, "s")], none⟩ "s" rfl elemButton [] rfl
  exact ⟨this.1, this.2.2.2⟩

theorem jsValueForText_spec (qs : Option Elem) (want v : String)
    (h : jsValueForText qs want = some v) :
    ∃ el, qs = some el ∧ strLower el.tagName = "select" ∧
      ∃ o ∈ el.options, strTrim o.text = strTrim want ∧ o.value = v := by
  rcases qs with _ | el
  · cases h
  · simp only [jsValueForText] at h
    by_cases ht : (strLower el.tagName == "select") = true
    · rw [if_pos ht] at h
      rcases hf : el.options.find? (fun o => strTrim o.text == strTrim want) with _ | o
      · rw [hf] at h; cases h
      · rw [hf] at h
        exact ⟨el, rfl, by simpa using ht, o, List.mem_of_find?_eq_some hf,
          by simpa using (List.find?_some hf), by simpa using h⟩
    · rw [if_neg ht] at h; cases h

/-- C8: `select_dropdown_option` resolves by (trimmed) visible text, never
by value: on the scenario select [("Red","r"),("Blue","b")] the text "Blue"
selects value "b", the text "Green" yields a not-found text with no value
passed to the page (value unchanged); and in general whenever a value is
selected it is the value of an option whose trimmed visible text equals the
trimmed requested text. -/
theorem c8_select_by_visible_text (s : BUState) (sel : String)
    (h : mapLookup s.selector_map 1 = some sel) :
    select_dropdown_option 1 "Blue" (some redBlueSelect) [redBlueSelect] s
        = (s, some "b", "Selected option \"Blue\" with value \"b\"")
    ∧ select_dropdown_option 1 "Green" (some redBlueSelect) [redBlueSelect] s
        = (s, none, "Could not find option with visible text \"Green\".")
    ∧ (∀ (qs : Option Elem) (matched : List Elem) (text v : String) (idx : Nat),
        (select_dropdown_option idx text qs matched s).2.1 = some v →
        ∃ el, qs = some el ∧ strLower el.tagName = "select" ∧
          ∃ o ∈ el.options, strTrim o.text = strTrim text ∧ o.value = v) := by
  refine ⟨?_, ?_, ?_⟩
  · unfold select_dropdown_option; rw [h]; rfl
  · unfold select_dropdown_option; rw [h]; rfl
  · intro qs matched text v idx hres
    unfold select_dropdown_option at hres
    rcases hl : mapLookup s.selector_map idx with _ | sel2
    · rw [hl] at hres; simp at hres
    · rw [hl] at hres
      rcases hv : jsValueForText qs text with _ | value
      · rw [hv] at hres; simp at hres
      · rw [hv] at hres
        rcases matched with _ | ⟨m, ms⟩
        · simp at hres
        · have hvv : value = v := by simpa using hres
          exact hvv ▸ jsValueForText_spec qs text value hv

/-- Witness for C8 at the scenario state. -/
theorem c8_select_by_visible_text_witness :
    select_dropdown_option 1 "Blue" (some redBlueSelect) [redBlueSelect]
        ⟨[(1, "select#s")], none⟩
      = (⟨[(1, "select#s")], none⟩, some "b",
          "Selected option \"Blue\" with value \"b\"") :=
  (c8_select_by_visible_text ⟨[(1, "select#s")], none⟩ "select#s" rfl).1

theorem cssPathLoop_spec (chain : List DomLevel) (path : List String) :
    cssPathLoop chain path
      = ((cssSegments chain).take (8 - path.length)).reverse ++ path := by
  induction chain generalizing path with
  | nil => simp [cssPathLoop, cssSegments]
  | cons l rest ih =>
    by_cases hlen : path.length < 8
    · by_cases hid : l.idAttr ≠ ""
      · have h1 : cssPathLoop (l :: rest) path = idSegment l :: path := by
          simp only [cssPathLoop]
          rw [if_pos hlen, if_pos hid]
        have h2 : cssSegments (l :: rest) = [idSegment l] := by
          simp only [cssSegments]
          rw [if_pos hid]
        rw [h1, h2]
        have hk : ∃ k, 8 - path.length = k + 1 := ⟨8 - path.length - 1, by omega⟩
        obtain ⟨k, hk⟩ := hk
        rw [hk]
        simp
      · have h1 : cssPathLoop (l :: rest) path
            = cssPathLoop rest (ordSegment l :: path) := by
          simp only [cssPathLoop]
          rw [if_pos hlen, if_neg hid]
        have h2 : cssSegments (l :: rest) = ordSegment l :: cssSegments rest := by
          simp only [cssSegments]
          rw [if_neg hid]
        rw [h1, h2, ih (ordSegment l :: path)]
        have hk : 8 - path.length = (8 - (ordSegment l :: path).length) + 1 := by
          simp only [List.length_cons]
          omega
        rw [hk, List.take_succ_cons, List.reverse_cons, List.append_assoc]
        rfl
    · have h1 : cssPathLoop (l :: rest) path = path := by
        simp only [cssPathLoop]
        rw [if_neg hlen]
      have hz : 8 - path.length = 0 := by omega
      rw [h1, hz]
      simp

/-- C9: the locator is the (reversed, hence root-to-leaf) walk over the
element and its ancestors, where a level with an identifier contributes its
id segment and terminates the walk, a level without one contributes its tag
name qualified by its ordinal among same-tag preceding siblings, segments
are joined with the child combinator " > ", and the walk never produces
more than 8 segments. -/
theorem c9_cssPath_shape (chain : List DomLevel) :
    cssPath chain
        = String.intercalate " > " (((cssSegments chain).take 8).reverse)
    ∧ (cssPathLoop chain []).length ≤ 8 := by
  constructor
  · unfold cssPath
    rw [cssPathLoop_spec chain []]
    simp
  · rw [cssPathLoop_spec chain []]
    simp only [List.append_nil, List.length_reverse]
    calc ((cssSegments chain).take (8 - List.length ([] : List String))).length
        ≤ 8 - List.length ([] : List String) := List.length_take_le _ _
      _ ≤ 8 := by simp

/-- C10: scroll_down(-1) performs an explicit scroll of -1 pixels yet its
confirmation is the omitted-amount ("one page") confirmation, for scroll_up
alike; every other explicit amount is echoed as exactly that number of
pixels. -/
theorem c10_scroll_sentinel :
    (scroll_down (some (-1))).1 = ScrollEffect.byPixels (-1)
    ∧ (scroll_down (some (-1))).2 = (scroll_down none).2
    ∧ (scroll_up (some (-1))).2 = (scroll_up none).2
    ∧ (∀ a : Int, a ≠ -1 →
        (scroll_down (some a)).2
            = "Scrolled down the page by " ++ toString a ++ " pixels"
          ∧ (scroll_up (some a)).2
            = "Scrolled up the page by " ++ toString a ++ " pixels") := by
  refine ⟨rfl, rfl, rfl, fun a ha => ⟨?_, ?_⟩⟩
  · have h : (scroll_down (some a)).2
        = "Scrolled down the page by " ++ scrollAmountPhrase a := rfl
    rw [h]
    unfold scrollAmountPhrase
    rw [if_neg (by simpa using ha)]
    exact (String.append_assoc _ _ _).symm
  · have h : (scroll_up (some a)).2
        = "Scrolled up the page by " ++ scrollAmountPhrase a := rfl
    rw [h]
    unfold scrollAmountPhrase
    rw [if_neg (by simpa using ha)]
    exact (String.append_assoc _ _ _).symm

/-- Witness for C10 at the explicit amount 250. -/
theorem c10_scroll_sentinel_witness :
    (scroll_down (some 250)).2 = "Scrolled down the page by 250 pixels"
    ∧ (scroll_up (some 250)).2 = "Scrolled up the page by 250 pixels" :=
  c10_scroll_sentinel.2.2.2 250 (by decide)
